import Mathlib

/-! # Clarity front-end: store and API-client helpers

A shallow embedding of `frontend/src/stores/user.js` (the Pinia user store) and of the
helpers of `frontend/src/api/clients.js` (device identifier, sync status, the local client's
inbound-failure interceptor, the sync auth interceptor), followed by the properties proved
about them.

Conventions of the embedding:
* mutable browser state (`localStorage`, the store's refs) is passed explicitly;
* the value `crypto.randomUUID()` would return on a call is an explicit argument;
* the quota of `localStorage` is an explicit argument `fits`, the set of storage contents the
  user agent admits: `setItem` throws `QuotaExceededError` on a content outside it;
* a promise's outcome is a value (`resolved`/`rejected`), a thrown error is `Except.error`;
* console output is collected as a list of entries.
-/

namespace Clarity

/-! ## JavaScript values -/

/-- JavaScript values handled by the store and the clients. Finite numbers are represented by
integers (the two zeros are strictly equal and are not distinguished), `NaN` is kept apart
because it is strictly equal to nothing, and an object is known by its reference. -/
inductive JsVal where
  | undefined
  | null
  | bool (b : Bool)
  | nan
  | num (n : Int)
  | str (s : String)
  | ref (addr : Nat)
  deriving DecidableEq, Repr

/-- The operator `===`. -/
def strictEq : JsVal → JsVal → Bool
  | .nan, _ => false
  | _, .nan => false
  | a, b => decide (a = b)

/-- Truthiness, as tested by `if (v)`, `!v` and `!!v`. -/
def truthy : JsVal → Bool
  | .undefined => false
  | .null => false
  | .bool b => b
  | .nan => false
  | .num n => decide (n ≠ 0)
  | .str s => decide (s ≠ "")
  | .ref _ => true

/-- String conversion, as performed by a template literal and by `localStorage.setItem`
(a plain object converts to `[object Object]`). -/
def toStr : JsVal → String
  | .undefined => "undefined"
  | .null => "null"
  | .bool true => "true"
  | .bool false => "false"
  | .nan => "NaN"
  | .num n => toString n
  | .str s => s
  | .ref _ => "[object Object]"

/-! ## Records -/

/-- A record (plain object): its own enumerable properties, in order. -/
abbrev Obj := List (String × JsVal)

/-- Property read `o.k`: `undefined` when the property is absent. -/
def getProp (o : Obj) (k : String) : JsVal :=
  match o.lookup k with
  | some v => v
  | none => .undefined

/-- Property write `o.k = v`. -/
def setProp (o : Obj) (k : String) (v : JsVal) : Obj :=
  if (o.lookup k).isSome then o.map (fun p => if p.1 == k then (k, v) else p)
  else o ++ [(k, v)]

/-- Object spread `{ ...a, ...b }`: the properties of `a`, each overridden by the property of
`b` with the same key when there is one, followed by the properties that only `b` has. -/
def spread (a b : Obj) : Obj :=
  a.map (fun p => (p.1, (b.lookup p.1).getD p.2)) ++ b.filter (fun p => (a.lookup p.1).isNone)

/-! ## Durable storage (`localStorage`) -/

deriving instance DecidableEq for Except

/-- The content of `localStorage`: string keys bound to string values. -/
abbrev Storage := List (String × String)

/-- `localStorage.getItem(key)`: the stored string, or `null`. -/
def getItem (ls : Storage) (key : String) : JsVal :=
  match ls.lookup key with
  | some s => .str s
  | none => .null

/-- `localStorage.removeItem(key)`. -/
def removeItem (ls : Storage) (key : String) : Storage :=
  ls.filter (fun p => !(p.1 == key))

/-- The number of characters held by the storage, keys and values together. -/
def storageSize (ls : Storage) : Nat :=
  (ls.map (fun p => p.1.length + p.2.length)).sum

/-- A quota of `limit` characters: whether a storage content fits in it. -/
def withinQuota (limit : Nat) (ls : Storage) : Bool := decide (storageSize ls ≤ limit)

/-- The `QuotaExceededError` that `localStorage.setItem` throws. -/
def quotaExceeded : Obj := [("name", .str "QuotaExceededError")]

/-- The storage content once `key` is bound to the string conversion of `value`, any earlier
binding of the key being replaced (the order of the keys is not observable through
`getItem`). -/
def bindItem (ls : Storage) (key : String) (value : JsVal) : Storage :=
  (key, toStr value) :: removeItem ls key

/-- `localStorage.setItem(key, value)`, where `fits` tells which storage contents the quota
of the user agent admits: the new content when it is admitted; otherwise the call throws
`QuotaExceededError` and the storage keeps its content. -/
def setItem (fits : Storage → Bool) (ls : Storage) (key : String) (value : JsVal) :
    Except Obj Storage :=
  if fits (bindItem ls key value) then .ok (bindItem ls key value)
  else .error quotaExceeded

/-- `localStorage.clear()`. -/
def clear (_ls : Storage) : Storage := []

/-! ## The user store (`stores/user.js`) -/

/-- The refs of the user store. `user` and `currentNotebook` hold a record or `null`. -/
structure Store where
  user : Option Obj
  accessToken : JsVal
  notebooks : List Obj
  currentNotebook : Option Obj
  deriving DecidableEq, Repr

/-- The store together with the durable storage it writes to. -/
structure World where
  store : Store
  localStorage : Storage
  deriving DecidableEq, Repr

/-- The body of `defineStore('user', ...)`: the four refs are created empty and the
in-memory token is seeded from `clarity_access_token` when that value is truthy. -/
def useUserStore (ls : Storage) : Store :=
  let storedToken := getItem ls "clarity_access_token"
  { user := none
    accessToken := if truthy storedToken then storedToken else .null
    notebooks := []
    currentNotebook := none }

/-- The computed `isAuthenticated`: `!!user.value`. -/
def isAuthenticated (s : Store) : Bool := s.user.isSome

def setUser (userData : Option Obj) (w : World) : World :=
  { w with store := { w.store with user := userData } }

/-- The action `setAccessToken(token)`: how the call ends (it throws what `setItem` throws,
there is no `try` around it) and the state it leaves. The in-memory token is assigned before
the storage is touched, so it is assigned even when the durable write throws. -/
def setAccessToken (fits : Storage → Bool) (token : JsVal) (w : World) :
    Except Obj Unit × World :=
  let store := { w.store with accessToken := token }
  if truthy token then
    match setItem fits w.localStorage "clarity_access_token" token with
    | .ok ls => (.ok (), { store := store, localStorage := ls })
    | .error e => (.error e, { store := store, localStorage := w.localStorage })
  else
    (.ok (), { store := store
               localStorage := removeItem w.localStorage "clarity_access_token" })

def setNotebooks (notebookList : List Obj) (w : World) : World :=
  { w with store := { w.store with notebooks := notebookList } }

def addNotebook (notebook : Obj) (w : World) : World :=
  { w with store := { w.store with notebooks := w.store.notebooks ++ [notebook] } }

/-- `Array.prototype.findIndex`: the lowest index whose element satisfies `p`, or `-1`. -/
def findIndex (p : Obj → Bool) : List Obj → Int
  | [] => -1
  | n :: rest =>
    if p n then 0
    else
      let i := findIndex p rest
      if i = -1 then -1 else i + 1

/-- The notebook collection after `updateNotebook(id, updates)`. -/
def updateNotebookList (id : JsVal) (updates : Obj) (notebooks : List Obj) : List Obj :=
  let index := findIndex (fun n => strictEq (getProp n "id") id) notebooks
  if index ≠ -1 then
    notebooks.set index.toNat (spread (notebooks.getD index.toNat []) updates)
  else notebooks

def updateNotebook (id : JsVal) (updates : Obj) (w : World) : World :=
  { w with store := { w.store with notebooks := updateNotebookList id updates w.store.notebooks } }

/-- The notebook collection after `deleteNotebook(id)`. -/
def deleteNotebookList (id : JsVal) (notebooks : List Obj) : List Obj :=
  notebooks.filter (fun n => !strictEq (getProp n "id") id)

def deleteNotebook (id : JsVal) (w : World) : World :=
  { w with store := { w.store with notebooks := deleteNotebookList id w.store.notebooks } }

def setCurrentNotebook (notebook : Option Obj) (w : World) : World :=
  { w with store := { w.store with currentNotebook := notebook } }

def logout (w : World) : World :=
  { store := { user := none, accessToken := .null, notebooks := [], currentNotebook := none }
    localStorage := clear w.localStorage }

/-! ## The API clients (`api/clients.js`) -/

/-- One call of `console.error` or `console.warn`: the level, the text, and the error object
passed along with it, if any. -/
structure LogEntry where
  level : String
  text : String
  payload : Option Obj
  deriving DecidableEq, Repr

/-- The arguments of `axios.create`. -/
structure ClientConfig where
  baseURL : String
  timeout : Nat
  headers : List (String × String)
  deriving DecidableEq, Repr

/-- The client `localBackend`, given the value of `VITE_LOCAL_BACKEND_URL`. -/
def localBackend (envUrl : JsVal) : ClientConfig :=
  { baseURL := if truthy envUrl then toStr envUrl else "http://localhost:5000"
    timeout := 30000
    headers := [("Content-Type", "application/json")] }

/-- The client `syncService`, given the value of `VITE_SYNC_SERVICE_URL`: `null` (here
`none`) when the URL is falsy. -/
def syncService (syncServiceUrl : JsVal) : Option ClientConfig :=
  if truthy syncServiceUrl then
    some { baseURL := toStr syncServiceUrl
           timeout := 10000
           headers := [("Content-Type", "application/json")] }
  else none

/-- The constant `isSyncEnabled`: `!!syncService`. -/
def isSyncEnabled (syncServiceUrl : JsVal) : Bool := (syncService syncServiceUrl).isSome

/-- The text of the error raised when the local backend cannot be reached. -/
def backendNotRunning : String :=
  "Local AI backend not running. Please start it with: uvicorn app.main:app --reload --port 5000"

/-- The object built by `new Error(message)`. -/
def newError (message : String) : Obj := [("message", .str message)]

/-- The rejection handler of `localBackend.interceptors.response`: the console output and
the outcome, where `Except.error e` stands for `throw e`. -/
def localResponseRejected (error : Obj) : List LogEntry × Except Obj Obj :=
  if strictEq (getProp error "code") (.str "ECONNREFUSED")
      || strictEq (getProp error "code") (.str "ERR_NETWORK") then
    ([{ level := "error"
        text := "❌ [Local AI] Backend not reachable. Is it running on port 5000?"
        payload := none }],
      .error (newError backendNotRunning))
  else ([], .error error)

/-- The rejection handler of `syncService.interceptors.response`. -/
def syncResponseRejected (error : Obj) : List LogEntry × Except Obj Obj :=
  ([{ level := "warn"
      text := "⚠️ [Cloud Sync] Failed (local still works): " ++ toStr (getProp error "message")
      payload := none }],
    .error error)

/-- An outgoing request: its headers and its other fields (method, url, data, ...). -/
structure RequestConfig where
  headers : Obj
  fields : Obj
  deriving DecidableEq, Repr

/-- How `await getAccessTokenFn()` ends: the promise is fulfilled with a value or rejected
with an error. -/
inductive TokenOutcome where
  | resolved (token : JsVal)
  | rejected (error : Obj)
  deriving DecidableEq, Repr

/-- The request interceptor registered by `configureSyncAuth`, applied to one request whose
token retrieval ended with `outcome`. The `try`/`catch` turns a rejection into a warning. -/
def syncAuthInterceptor (outcome : TokenOutcome) (config : RequestConfig) :
    List LogEntry × Except Obj RequestConfig :=
  match outcome with
  | .resolved token =>
    if truthy token then
      ([], .ok { config with
        headers := setProp config.headers "Authorization" (.str ("Bearer " ++ toStr token)) })
    else ([], .ok config)
  | .rejected error =>
    ([{ level := "warn", text := "⚠️ [Cloud Sync] Could not get auth token:", payload := some error }],
      .ok config)

/-- The interceptors `configureSyncAuth` adds to the sync client: one when the client exists,
none otherwise. -/
def configureSyncAuth (syncService : Option ClientConfig) :
    List (TokenOutcome → RequestConfig → List LogEntry × Except Obj RequestConfig) :=
  match syncService with
  | some _ => [syncAuthInterceptor]
  | none => []

/-- The function `getDeviceId`, where `randomUUID` is the value `crypto.randomUUID()` returns
if it is called: how the call ends (the returned identifier, or the error `setItem` throws)
and the storage afterwards. -/
def getDeviceId (fits : Storage → Bool) (randomUUID : String) (ls : Storage) :
    Except Obj JsVal × Storage :=
  let deviceId := getItem ls "clarity_device_id"
  if !truthy deviceId then
    match setItem fits ls "clarity_device_id" (.str randomUUID) with
    | .ok ls1 => (.ok (.str randomUUID), ls1)
    | .error e => (.error e, ls)
  else (.ok deviceId, ls)

/-- The result of `getSyncStatus`. -/
structure SyncStatus where
  enabled : Bool
  status : String
  icon : String
  deriving DecidableEq, Repr

/-- The function `getSyncStatus`, given the constant `isSyncEnabled` and the value of
`navigator.onLine`. -/
def getSyncStatus (isSyncEnabled : Bool) (onLine : Bool) : SyncStatus :=
  if !isSyncEnabled then { enabled := false, status := "Local Only", icon := "💾" }
  else if !onLine then { enabled := true, status := "Offline", icon := "📴" }
  else { enabled := true, status := "Online", icon := "☁️" }

/-! ## Sequences of operations -/

/-- One call on the store or on the device-identifier helper. -/
inductive Op where
  | setUser (userData : Option Obj)
  | setAccessToken (token : JsVal)
  | setNotebooks (notebookList : List Obj)
  | addNotebook (notebook : Obj)
  | updateNotebook (id : JsVal) (updates : Obj)
  | deleteNotebook (id : JsVal)
  | setCurrentNotebook (notebook : Option Obj)
  | logout
  | getDeviceId (randomUUID : String)
  deriving DecidableEq, Repr

/-- The state one call leaves, whether it returns or throws. -/
def Op.run (fits : Storage → Bool) : Op → World → World
  | .setUser u, w => Clarity.setUser u w
  | .setAccessToken t, w => (Clarity.setAccessToken fits t w).2
  | .setNotebooks l, w => Clarity.setNotebooks l w
  | .addNotebook n, w => Clarity.addNotebook n w
  | .updateNotebook id u, w => Clarity.updateNotebook id u w
  | .deleteNotebook id, w => Clarity.deleteNotebook id w
  | .setCurrentNotebook n, w => Clarity.setCurrentNotebook n w
  | .logout, w => Clarity.logout w
  | .getDeviceId r, w => { w with localStorage := (Clarity.getDeviceId fits r w.localStorage).2 }

/-- The state a sequence of calls leaves, first call first. -/
def runOps (fits : Storage → Bool) (ops : List Op) (w : World) : World :=
  ops.foldl (fun acc op => op.run fits acc) w

/-- Whether a call is `logout()`. -/
def Op.isLogout : Op → Bool
  | .logout => true
  | _ => false

/-! ## Lemmas on durable storage -/

theorem lookup_filter_ne_self (ls : Storage) (key : String) :
    (ls.filter (fun p => !(p.1 == key))).lookup key = none := by
  induction ls with
  | nil => rfl
  | cons p rest ih =>
    obtain ⟨k, v⟩ := p
    by_cases h : k = key
    · simp [List.filter_cons, h, ih]
    · have hb : (key == k) = false := by simpa using fun e => h e.symm
      simp [List.filter_cons, h, List.lookup_cons, hb, ih]

theorem lookup_filter_ne_other (ls : Storage) (key other : String) (h : other ≠ key) :
    (ls.filter (fun p => !(p.1 == key))).lookup other = ls.lookup other := by
  induction ls with
  | nil => rfl
  | cons p rest ih =>
    obtain ⟨k, v⟩ := p
    by_cases hk : k = key
    · have hb : (other == key) = false := by simpa using h
      simp [List.filter_cons, hk, List.lookup_cons, ih, hb]
    · by_cases ho : other = k
      · simp [List.filter_cons, hk, List.lookup_cons, ho]
      · have hb : (other == k) = false := by simpa using ho
        simp [List.filter_cons, hk, List.lookup_cons, hb, ih]

theorem getItem_removeItem_self (ls : Storage) (key : String) :
    getItem (removeItem ls key) key = .null := by
  simp [getItem, removeItem, lookup_filter_ne_self]

theorem getItem_removeItem_other (ls : Storage) (key other : String) (h : other ≠ key) :
    getItem (removeItem ls key) other = getItem ls other := by
  simp [getItem, removeItem, lookup_filter_ne_other ls key other h]

theorem getItem_of_truthy (ls : Storage) (key : String)
    (h : truthy (getItem ls key) = true) :
    ∃ id : String, id ≠ "" ∧ getItem ls key = .str id := by
  unfold getItem at h ⊢
  cases hl : ls.lookup key with
  | none =>
    rw [hl] at h
    simp [truthy] at h
  | some v =>
    rw [hl] at h
    exact ⟨v, by simpa [truthy] using h, rfl⟩

theorem getItem_bindItem_self (ls : Storage) (key : String) (value : JsVal) :
    getItem (bindItem ls key value) key = .str (toStr value) := by
  simp [getItem, bindItem, List.lookup_cons]

theorem getItem_bindItem_other (ls : Storage) (key other : String) (value : JsVal)
    (h : other ≠ key) : getItem (bindItem ls key value) other = getItem ls other := by
  have hb : (other == key) = false := by simpa using h
  have := getItem_removeItem_other ls key other h
  simp only [getItem, bindItem, List.lookup_cons, hb] at this ⊢
  exact this

theorem setItem_of_fits (fits : Storage → Bool) (ls : Storage) (key : String) (value : JsVal)
    (h : fits (bindItem ls key value) = true) :
    setItem fits ls key value = .ok (bindItem ls key value) := by
  simp [setItem, h]

theorem setItem_of_not_fits (fits : Storage → Bool) (ls : Storage) (key : String)
    (value : JsVal) (h : fits (bindItem ls key value) = false) :
    setItem fits ls key value = .error quotaExceeded := by
  simp [setItem, h]

/-! ## Lemmas on the device identifier -/

theorem getDeviceId_of_stored (fits : Storage → Bool) (r : String) (ls : Storage)
    (h : truthy (getItem ls "clarity_device_id") = true) :
    getDeviceId fits r ls = (.ok (getItem ls "clarity_device_id"), ls) := by
  simp [getDeviceId, h]

theorem getDeviceId_of_fits (fits : Storage → Bool) (r : String) (ls : Storage)
    (h : truthy (getItem ls "clarity_device_id") = false)
    (hfits : fits (bindItem ls "clarity_device_id" (.str r)) = true) :
    getDeviceId fits r ls = (.ok (.str r), bindItem ls "clarity_device_id" (.str r)) := by
  simp [getDeviceId, h, setItem_of_fits fits ls _ _ hfits]

theorem getDeviceId_of_not_fits (fits : Storage → Bool) (r : String) (ls : Storage)
    (h : truthy (getItem ls "clarity_device_id") = false)
    (hfits : fits (bindItem ls "clarity_device_id" (.str r)) = false) :
    getDeviceId fits r ls = (.error quotaExceeded, ls) := by
  simp [getDeviceId, h, setItem_of_not_fits fits ls _ _ hfits]

theorem getDeviceId_post (fits : Storage → Bool) (r : String) (ls : Storage) (d : JsVal)
    (hr : r ≠ "") (hok : (getDeviceId fits r ls).1 = .ok d) :
    getItem (getDeviceId fits r ls).2 "clarity_device_id" = d ∧ truthy d = true := by
  cases h : truthy (getItem ls "clarity_device_id") with
  | true =>
    rw [getDeviceId_of_stored fits r ls h] at hok ⊢
    cases hok
    exact ⟨rfl, h⟩
  | false =>
    cases hfits : fits (bindItem ls "clarity_device_id" (.str r)) with
    | true =>
      rw [getDeviceId_of_fits fits r ls h hfits] at hok ⊢
      cases hok
      exact ⟨getItem_bindItem_self _ _ _, by simp [truthy, hr]⟩
    | false =>
      rw [getDeviceId_of_not_fits fits r ls h hfits] at hok
      cases hok

theorem setAccessToken_keeps_deviceId (fits : Storage → Bool) (t : JsVal) (w : World) :
    getItem (setAccessToken fits t w).2.localStorage "clarity_device_id"
      = getItem w.localStorage "clarity_device_id" := by
  cases ht : truthy t with
  | false =>
    simp only [setAccessToken, ht, Bool.false_eq_true, if_false]
    exact getItem_removeItem_other _ _ _ (by decide)
  | true =>
    cases hfits : fits (bindItem w.localStorage "clarity_access_token" t) with
    | true =>
      simp only [setAccessToken, ht, if_true, setItem_of_fits fits _ _ _ hfits]
      exact getItem_bindItem_other _ _ _ _ (by decide)
    | false =>
      simp only [setAccessToken, ht, if_true, setItem_of_not_fits fits _ _ _ hfits]

theorem run_keeps_deviceId (fits : Storage → Bool) (op : Op) (w : World)
    (hop : op.isLogout = false)
    (h : truthy (getItem w.localStorage "clarity_device_id") = true) :
    getItem (op.run fits w).localStorage "clarity_device_id"
      = getItem w.localStorage "clarity_device_id" := by
  cases op with
  | logout => simp [Op.isLogout] at hop
  | setAccessToken t => exact setAccessToken_keeps_deviceId fits t w
  | getDeviceId r => simp [Op.run, getDeviceId_of_stored fits r w.localStorage h]
  | _ => rfl

theorem runOps_keeps_deviceId (fits : Storage → Bool) (ops : List Op) (w : World)
    (hops : ∀ op ∈ ops, op.isLogout = false)
    (h : truthy (getItem w.localStorage "clarity_device_id") = true) :
    getItem (runOps fits ops w).localStorage "clarity_device_id"
      = getItem w.localStorage "clarity_device_id" := by
  induction ops generalizing w with
  | nil => rfl
  | cons op rest ih =>
    have hop : op.isLogout = false := hops op (List.mem_cons_self _ _)
    have hstep := run_keeps_deviceId fits op w hop h
    have hrest := ih (op.run fits w) (fun o ho => hops o (List.mem_cons_of_mem _ ho))
      (by rw [hstep]; exact h)
    simpa [runOps, List.foldl_cons, hstep] using hrest

/-! ## Lemmas on records -/

theorem lookup_spread_left (a b rest : Obj) (k : String) :
    (a.map (fun p => (p.1, (b.lookup p.1).getD p.2)) ++ rest).lookup k
      = match a.lookup k with
        | some v => some ((b.lookup k).getD v)
        | none => rest.lookup k := by
  induction a with
  | nil => rfl
  | cons p tl ih =>
    obtain ⟨k1, v1⟩ := p
    by_cases h : k = k1
    · subst h
      simp [List.lookup_cons]
    · have hb : (k == k1) = false := by simpa using h
      simp only [List.map_cons, List.cons_append, List.lookup_cons, hb]
      exact ih

theorem lookup_spread_right (a b : Obj) (k : String) (h : a.lookup k = none) :
    (b.filter (fun p => (a.lookup p.1).isNone)).lookup k = b.lookup k := by
  induction b with
  | nil => rfl
  | cons p tl ih =>
    obtain ⟨k1, v1⟩ := p
    by_cases hk : k = k1
    · subst hk
      simp [List.filter_cons, h, List.lookup_cons]
    · have hb : (k == k1) = false := by simpa using hk
      by_cases hf : (a.lookup k1).isNone = true
      · simp only [List.filter_cons, hf, if_true, List.lookup_cons, hb]
        exact ih
      · simp only [List.filter_cons, hf, List.lookup_cons, hb]
        simpa using ih

theorem lookup_spread (a b : Obj) (k : String) :
    (spread a b).lookup k
      = match b.lookup k with
        | some v => some v
        | none => a.lookup k := by
  unfold spread
  rw [lookup_spread_left]
  cases ha : a.lookup k with
  | some v => cases hb : b.lookup k <;> simp
  | none =>
    simp only
    rw [lookup_spread_right a b k ha]
    cases hb : b.lookup k <;> simp

theorem lookup_replace_self (o : Obj) (k : String) (v : JsVal)
    (h : (o.lookup k).isSome = true) :
    (o.map (fun p => if p.1 == k then (k, v) else p)).lookup k = some v := by
  induction o with
  | nil => simp at h
  | cons p tl ih =>
    obtain ⟨k1, v1⟩ := p
    by_cases hk : k = k1
    · subst hk
      simp [List.lookup_cons]
    · have hb : (k == k1) = false := by simpa using hk
      have hb2 : (k1 == k) = false := by simpa using fun e => hk e.symm
      simp only [List.lookup_cons, hb] at h
      simp only [List.map_cons, hb2, Bool.false_eq_true, if_false, List.lookup_cons, hb]
      exact ih h

theorem lookup_replace_other (o : Obj) (k other : String) (v : JsVal) (h : other ≠ k) :
    (o.map (fun p => if p.1 == k then (k, v) else p)).lookup other = o.lookup other := by
  have hb : (other == k) = false := by simpa using h
  induction o with
  | nil => rfl
  | cons p tl ih =>
    obtain ⟨k1, v1⟩ := p
    by_cases hk : k1 = k
    · subst hk
      simp only [List.map_cons, beq_self_eq_true, if_true, List.lookup_cons, hb]
      exact ih
    · have hb2 : (k1 == k) = false := by simpa using hk
      simp only [List.map_cons, hb2, Bool.false_eq_true, if_false, List.lookup_cons]
      rw [ih]

theorem lookup_setProp_self (o : Obj) (k : String) (v : JsVal) :
    (setProp o k v).lookup k = some v := by
  unfold setProp
  split
  · rename_i h
    exact lookup_replace_self o k v h
  · rename_i h
    have hn : o.lookup k = none := by
      cases hl : o.lookup k with
      | none => rfl
      | some x => simp [hl] at h
    simp [List.lookup_append, hn, List.lookup_cons]

theorem lookup_setProp_other (o : Obj) (k other : String) (v : JsVal) (h : other ≠ k) :
    (setProp o k v).lookup other = o.lookup other := by
  have hb : (other == k) = false := by simpa using h
  unfold setProp
  split
  · exact lookup_replace_other o k other v h
  · simp [List.lookup_append, List.lookup_cons, hb]

/-! ## Lemmas on `findIndex` -/

theorem findIndex_ge (p : Obj → Bool) (l : List Obj) : -1 ≤ findIndex p l := by
  induction l with
  | nil => simp [findIndex]
  | cons n rest ih =>
    simp only [findIndex]
    split
    · omega
    · split <;> omega

theorem findIndex_absent (p : Obj → Bool) (l : List Obj) (h : ∀ n ∈ l, p n = false) :
    findIndex p l = -1 := by
  induction l with
  | nil => rfl
  | cons n rest ih =>
    have hn : p n = false := h n (List.mem_cons_self _ _)
    have hrest := ih (fun m hm => h m (List.mem_cons_of_mem _ hm))
    simp [findIndex, hn, hrest]

theorem findIndex_found (p : Obj → Bool) (l : List Obj) (h : ∃ n ∈ l, p n = true) :
    ∃ (i : Nat) (entry : Obj), findIndex p l = (i : Int) ∧ l[i]? = some entry ∧ p entry = true
      ∧ ∀ (j : Nat) (m : Obj), j < i → l[j]? = some m → p m = false := by
  induction l with
  | nil => simp at h
  | cons n rest ih =>
    by_cases hn : p n = true
    · exact ⟨0, n, by simp [findIndex, hn], by simp, hn, by omega⟩
    · have hrest : ∃ m ∈ rest, p m = true := by
        obtain ⟨m, hm, hpm⟩ := h
        rcases List.mem_cons.mp hm with rfl | hm
        · exact absurd hpm hn
        · exact ⟨m, hm, hpm⟩
      obtain ⟨i, entry, hi, hget, hp, hlow⟩ := ih hrest
      refine ⟨i + 1, entry, ?_, by simpa using hget, hp, ?_⟩
      · have hne : (i : Int) ≠ -1 := by omega
        simp only [findIndex, hn, hi]
        simp [hne]
      · intro j m hj hjm
        cases j with
        | zero =>
          simp at hjm
          subst hjm
          simpa using hn
        | succ j => exact hlow j m (by omega) (by simpa using hjm)

/-! ## Properties of the store and of the helpers -/

/-- C1, as stated, fails at two inputs. For the empty string, `setAccessToken("")` keeps `""`
in memory but removes the durable copy, so a store created afterwards holds `null`. For a
non-empty string that the quota does not admit, `setItem` throws, the durable copy keeps its
earlier value, and a store created afterwards holds that earlier value. -/
theorem setAccessToken_then_reload_fails :
    ((setAccessToken (withinQuota 5000000) (.str "")
          { store := { user := none, accessToken := .null, notebooks := [],
                       currentNotebook := none }
            localStorage := [] }).1 = .ok ()
        ∧ (useUserStore
            (setAccessToken (withinQuota 5000000) (.str "")
              { store := { user := none, accessToken := .null, notebooks := [],
                           currentNotebook := none }
                localStorage := [] }).2.localStorage).accessToken = .null
        ∧ JsVal.null ≠ JsVal.str "")
      ∧ ((setAccessToken (withinQuota 30) (.str "0123456789abcdef")
            { store := { user := none, accessToken := .str "old", notebooks := [],
                         currentNotebook := none }
              localStorage := [("clarity_access_token", "old")] }).1 = .error quotaExceeded
        ∧ (useUserStore
            (setAccessToken (withinQuota 30) (.str "0123456789abcdef")
              { store := { user := none, accessToken := .str "old", notebooks := [],
                           currentNotebook := none }
                localStorage := [("clarity_access_token", "old")] }).2.localStorage).accessToken
          = .str "old"
        ∧ JsVal.str "old" ≠ JsVal.str "0123456789abcdef") := by
  decide

/-- C1 (amended): for every token `t` that is `null`, or a non-empty string whose durable
write the storage quota admits, and every prior store and durable storage,
`setAccessToken(t)` returns normally, and a fresh store created afterwards over the same
durable storage has the in-memory `accessToken` equal to `t`. -/
theorem setAccessToken_then_reload (fits : Storage → Bool) (t : JsVal) (w : World)
    (ht : t = .null ∨ ∃ s : String, s ≠ "" ∧ t = .str s
      ∧ fits (bindItem w.localStorage "clarity_access_token" (.str s)) = true) :
    (setAccessToken fits t w).1 = .ok ()
      ∧ (setAccessToken fits t w).2.store.accessToken = t
      ∧ (useUserStore (setAccessToken fits t w).2.localStorage).accessToken = t := by
  rcases ht with rfl | ⟨s, hs, rfl, hfits⟩
  · simp [useUserStore, setAccessToken, truthy, getItem_removeItem_self]
  · have htr : truthy (.str s) = true := by simp [truthy, hs]
    have hset : setAccessToken fits (.str s) w
        = (.ok (), { store := { w.store with accessToken := .str s }
                     localStorage := bindItem w.localStorage "clarity_access_token" (.str s) }) := by
      simp only [setAccessToken, htr, if_true, setItem_of_fits fits _ _ _ hfits]
    rw [hset]
    refine ⟨rfl, rfl, ?_⟩
    simp only [useUserStore, getItem_bindItem_self, toStr, htr, if_true]

theorem setAccessToken_then_reload_witness :
    (JsVal.str "tok" = .null ∨ ∃ s : String, s ≠ "" ∧ JsVal.str "tok" = .str s
        ∧ withinQuota 5000000
            (bindItem [("clarity_access_token", "old")] "clarity_access_token" (.str s)) = true)
      ∧ (setAccessToken (withinQuota 5000000) (.str "tok")
            { store := { user := none, accessToken := .str "old", notebooks := [],
                         currentNotebook := none }
              localStorage := [("clarity_access_token", "old")] }).1 = .ok ()
      ∧ (useUserStore
          (setAccessToken (withinQuota 5000000) (.str "tok")
            { store := { user := none, accessToken := .str "old", notebooks := [],
                         currentNotebook := none }
              localStorage := [("clarity_access_token", "old")] }).2.localStorage).accessToken
        = .str "tok" :=
  have h := setAccessToken_then_reload (withinQuota 5000000) (.str "tok")
    { store := { user := none, accessToken := .str "old", notebooks := [],
                 currentNotebook := none }
      localStorage := [("clarity_access_token", "old")] }
    (Or.inr ⟨"tok", by decide, rfl, by decide⟩)
  ⟨Or.inr ⟨"tok", by decide, rfl, by decide⟩, h.1, h.2.2⟩

/-- C2, as stated, fails: `logout()` clears the whole durable storage, so the call of
`getDeviceId` that follows it generates and returns a new identifier. -/
theorem getDeviceId_changes_after_logout :
    (getDeviceId (withinQuota 5000000) "uuid-1" []).1 = .ok (.str "uuid-1")
      ∧ (getDeviceId (withinQuota 5000000) "uuid-2"
          (runOps (withinQuota 5000000) [.logout]
            { store := { user := none, accessToken := .null, notebooks := [],
                         currentNotebook := none }
              localStorage := (getDeviceId (withinQuota 5000000) "uuid-1" []).2 }).localStorage).1
        = .ok (.str "uuid-2")
      ∧ (getDeviceId (withinQuota 5000000) "uuid-2"
          (runOps (withinQuota 5000000) [.logout]
            { store := { user := none, accessToken := .null, notebooks := [],
                         currentNotebook := none }
              localStorage := (getDeviceId (withinQuota 5000000) "uuid-1" []).2 }).localStorage).1
        ≠ (getDeviceId (withinQuota 5000000) "uuid-1" []).1 := by
  decide

/-- C2 (amended): in every state reached from a first `getDeviceId` call that returned `d`
(the identifier it generates, if it generates one, being a non-empty string) by any sequence
of store operations other than `logout` and of further `getDeviceId` calls, whether these
calls return or throw, `getDeviceId` returns the same value `d` and writes nothing. -/
theorem getDeviceId_stable_without_logout (fits : Storage → Bool) (r0 r : String) (w : World)
    (ops : List Op) (d : JsVal) (hr0 : r0 ≠ "")
    (hfirst : (getDeviceId fits r0 w.localStorage).1 = .ok d)
    (hops : ∀ op ∈ ops, op.isLogout = false) :
    getDeviceId fits r
        (runOps fits ops
          { w with localStorage := (getDeviceId fits r0 w.localStorage).2 }).localStorage
      = (.ok d,
          (runOps fits ops
            { w with localStorage := (getDeviceId fits r0 w.localStorage).2 }).localStorage) := by
  obtain ⟨hget, htruthy⟩ := getDeviceId_post fits r0 w.localStorage d hr0 hfirst
  have hkeep := runOps_keeps_deviceId fits ops
    { w with localStorage := (getDeviceId fits r0 w.localStorage).2 } hops
    (by rw [hget]; exact htruthy)
  rw [getDeviceId_of_stored fits r _ (by rw [hkeep, hget]; exact htruthy), hkeep]
  exact congrArg (fun v => (Except.ok v, _)) hget

theorem getDeviceId_stable_without_logout_witness :
    ("uuid-1" ≠ ""
        ∧ (getDeviceId (withinQuota 60) "uuid-1" []).1 = .ok (.str "uuid-1")
        ∧ ∀ op ∈ [Op.setAccessToken (.str "a-token-longer-than-the-quota"),
            Op.setAccessToken (.str "tok"), Op.getDeviceId "uuid-2",
            Op.deleteNotebook (.num 1)], op.isLogout = false)
      ∧ (getDeviceId (withinQuota 60) "uuid-3"
          (runOps (withinQuota 60)
            [Op.setAccessToken (.str "a-token-longer-than-the-quota"),
              Op.setAccessToken (.str "tok"), Op.getDeviceId "uuid-2",
              Op.deleteNotebook (.num 1)]
            { store := { user := none, accessToken := .null, notebooks := [],
                         currentNotebook := none }
              localStorage := (getDeviceId (withinQuota 60) "uuid-1" []).2 }).localStorage).1
        = .ok (.str "uuid-1") :=
  ⟨⟨by decide, by decide, by decide⟩,
    congrArg Prod.fst
      (getDeviceId_stable_without_logout (withinQuota 60) "uuid-1" "uuid-3"
        { store := { user := none, accessToken := .null, notebooks := [],
                     currentNotebook := none }
          localStorage := [] }
        [Op.setAccessToken (.str "a-token-longer-than-the-quota"),
          Op.setAccessToken (.str "tok"), Op.getDeviceId "uuid-2", Op.deleteNotebook (.num 1)]
        (.str "uuid-1") (by decide) (by decide) (by decide))⟩

/-- C6: for every store state and every durable-storage content, after `logout()` the store
has `user = null`, `accessToken = null`, an empty notebook collection and
`currentNotebook = null`, and reading any key of the durable storage returns `null`. -/
theorem logout_resets_everything (w : World) :
    (logout w).store.user = none
      ∧ (logout w).store.accessToken = .null
      ∧ (logout w).store.notebooks = []
      ∧ (logout w).store.currentNotebook = none
      ∧ ∀ key : String, getItem (logout w).localStorage key = .null := by
  simp [logout, clear, getItem]

/-- C8, as stated, fails on a storage that holds no identifier and whose quota does not
admit the write of the generated one: `setItem` throws, so both calls of `getDeviceId` throw
instead of returning a value, and `clarity_device_id` stays unbound. -/
theorem getDeviceId_throws_on_full_storage :
    getDeviceId (withinQuota 20) "uuid-1" [("note", "0123456789abcdef")]
        = (.error quotaExceeded, [("note", "0123456789abcdef")])
      ∧ getDeviceId (withinQuota 20) "uuid-2"
          (getDeviceId (withinQuota 20) "uuid-1" [("note", "0123456789abcdef")]).2
        = (.error quotaExceeded, [("note", "0123456789abcdef")])
      ∧ getItem (getDeviceId (withinQuota 20) "uuid-1" [("note", "0123456789abcdef")]).2
          "clarity_device_id" = .null := by
  decide

/-- C8 (amended): for every durable storage that already holds a non-empty
`clarity_device_id` or whose quota admits the write of the generated identifier, and every
generated identifier that is a non-empty string, the first `getDeviceId` call returns a
non-empty string: the stored identifier, with the storage untouched, when there is one, and
otherwise the generated identifier. After that call `clarity_device_id` holds the returned
value and every other key holds what it held, and a second call, whatever identifier it
would generate, returns the same value and leaves the storage unchanged. -/
theorem getDeviceId_twice (fits : Storage → Bool) (r1 r2 : String) (ls : Storage)
    (h1 : r1 ≠ "")
    (hroom : truthy (getItem ls "clarity_device_id") = true
      ∨ fits (bindItem ls "clarity_device_id" (.str r1)) = true) :
    ∃ id : String, id ≠ ""
      ∧ (getDeviceId fits r1 ls).1 = .ok (.str id)
      ∧ (truthy (getItem ls "clarity_device_id") = true →
          getItem ls "clarity_device_id" = .str id ∧ (getDeviceId fits r1 ls).2 = ls)
      ∧ (truthy (getItem ls "clarity_device_id") = false → id = r1)
      ∧ getItem (getDeviceId fits r1 ls).2 "clarity_device_id" = .str id
      ∧ (∀ key : String, key ≠ "clarity_device_id" →
          getItem (getDeviceId fits r1 ls).2 key = getItem ls key)
      ∧ getDeviceId fits r2 (getDeviceId fits r1 ls).2
          = (.ok (.str id), (getDeviceId fits r1 ls).2) := by
  cases h : truthy (getItem ls "clarity_device_id") with
  | true =>
    obtain ⟨id, hne, hid⟩ := getItem_of_truthy ls "clarity_device_id" h
    have hfirst := getDeviceId_of_stored fits r1 ls h
    refine ⟨id, hne, ?_, ?_, ?_, ?_, ?_, ?_⟩
    · rw [hfirst, hid]
    · intro _
      exact ⟨hid, by rw [hfirst]⟩
    · intro hf
      cases hf
    · rw [hfirst]
      exact hid
    · intro key _
      rw [hfirst]
    · rw [hfirst, getDeviceId_of_stored fits r2 ls h, hid]
  | false =>
    have hfits : fits (bindItem ls "clarity_device_id" (.str r1)) = true := by
      rcases hroom with hst | hf
      · rw [h] at hst
        cases hst
      · exact hf
    have hfirst := getDeviceId_of_fits fits r1 ls h hfits
    have hstored : getItem (bindItem ls "clarity_device_id" (.str r1)) "clarity_device_id"
        = .str r1 := getItem_bindItem_self _ _ _
    have htr : truthy (getItem (bindItem ls "clarity_device_id" (.str r1)) "clarity_device_id")
        = true := by
      rw [hstored]
      simp [truthy, h1]
    refine ⟨r1, h1, ?_, ?_, ?_, ?_, ?_, ?_⟩
    · rw [hfirst]
    · intro ht
      cases ht
    · intro _
      rfl
    · rw [hfirst]
      exact hstored
    · intro key hkey
      rw [hfirst]
      exact getItem_bindItem_other _ _ _ _ hkey
    · rw [hfirst, getDeviceId_of_stored fits r2 _ htr, hstored]

theorem getDeviceId_twice_witness :
    ("uuid-1" ≠ ""
        ∧ (truthy (getItem [("clarity_access_token", "tok")] "clarity_device_id") = true
          ∨ withinQuota 5000000
              (bindItem [("clarity_access_token", "tok")] "clarity_device_id" (.str "uuid-1"))
            = true))
      ∧ ∃ id : String, id ≠ ""
          ∧ (getDeviceId (withinQuota 5000000) "uuid-1" [("clarity_access_token", "tok")]).1
              = .ok (.str id)
          ∧ id = "uuid-1"
          ∧ getDeviceId (withinQuota 5000000) "uuid-2"
              (getDeviceId (withinQuota 5000000) "uuid-1" [("clarity_access_token", "tok")]).2
            = (.ok (.str id),
                (getDeviceId (withinQuota 5000000) "uuid-1"
                  [("clarity_access_token", "tok")]).2) := by
  obtain ⟨id, hne, hfirst, _, hgen, _, _, hsecond⟩ :=
    getDeviceId_twice (withinQuota 5000000) "uuid-1" "uuid-2" [("clarity_access_token", "tok")]
      (by decide) (Or.inr (by decide))
  exact ⟨⟨by decide, Or.inr (by decide)⟩, id, hne, hfirst, hgen (by decide), hsecond⟩

/-- C3: for every notebook collection, every id that is strictly equal to the id of no entry
and every updates record, `updateNotebook(id, updates)` leaves the collection (and the rest of
the store and the durable storage) unchanged; the operation is a total function, so it raises
no error. -/
theorem updateNotebook_absent_id (id : JsVal) (updates : Obj) (w : World)
    (h : ∀ n ∈ w.store.notebooks, strictEq (getProp n "id") id = false) :
    (updateNotebook id updates w).store.notebooks = w.store.notebooks
      ∧ updateNotebook id updates w = w := by
  have hidx := findIndex_absent (fun n => strictEq (getProp n "id") id) w.store.notebooks h
  simp [updateNotebook, updateNotebookList, hidx]

theorem updateNotebook_absent_id_witness :
    (∀ n ∈ [[("id", JsVal.num 1), ("title", JsVal.str "a")], [("id", JsVal.str "2")]],
        strictEq (getProp n "id") (.num 2) = false)
      ∧ (updateNotebook (.num 2) [("title", .str "b")]
          { store := { user := none, accessToken := .null,
                       notebooks := [[("id", .num 1), ("title", .str "a")], [("id", .str "2")]],
                       currentNotebook := none }
            localStorage := [] }).store.notebooks
        = [[("id", .num 1), ("title", .str "a")], [("id", .str "2")]] :=
  ⟨by decide,
    (updateNotebook_absent_id (.num 2) [("title", .str "b")]
      { store := { user := none, accessToken := .null,
                   notebooks := [[("id", .num 1), ("title", .str "a")], [("id", .str "2")]],
                   currentNotebook := none }
        localStorage := [] } (by decide)).1⟩

/-- C4: for every notebook collection that contains an entry whose id is strictly equal to
the given id, `updateNotebook(id, updates)` replaces the first such entry (lowest index `i`)
with the shallow merge of that entry and `updates`, in which a field present in `updates` has
the value from `updates` and every other field keeps the value of the entry; every other
position, later entries with the same id included, is unchanged, and the length and the order
of the collection are preserved. -/
theorem updateNotebook_first_match (id : JsVal) (updates : Obj) (w : World)
    (h : ∃ n ∈ w.store.notebooks, strictEq (getProp n "id") id = true) :
    ∃ (i : Nat) (entry : Obj),
      w.store.notebooks[i]? = some entry
        ∧ strictEq (getProp entry "id") id = true
        ∧ (∀ (j : Nat) (m : Obj), j < i → w.store.notebooks[j]? = some m →
            strictEq (getProp m "id") id = false)
        ∧ (updateNotebook id updates w).store.notebooks[i]? = some (spread entry updates)
        ∧ (∀ k : String, (spread entry updates).lookup k
            = match updates.lookup k with
              | some v => some v
              | none => entry.lookup k)
        ∧ (∀ j : Nat, j ≠ i →
            (updateNotebook id updates w).store.notebooks[j]? = w.store.notebooks[j]?)
        ∧ (updateNotebook id updates w).store.notebooks.length = w.store.notebooks.length := by
  obtain ⟨i, entry, hidx, hget, hp, hlow⟩ :=
    findIndex_found (fun n => strictEq (getProp n "id") id) w.store.notebooks h
  have hne : (i : Int) ≠ -1 := by omega
  have hlt : i < w.store.notebooks.length := by
    rcases Nat.lt_or_ge i w.store.notebooks.length with hl | hl
    · exact hl
    · rw [List.getElem?_eq_none hl] at hget
      cases hget
  have hres : (updateNotebook id updates w).store.notebooks
      = w.store.notebooks.set i (spread entry updates) := by
    simp [updateNotebook, updateNotebookList, hidx, hne, hget]
  refine ⟨i, entry, hget, hp, hlow, ?_, fun k => lookup_spread entry updates k, ?_, ?_⟩
  · rw [hres]
    exact List.getElem?_set_self hlt
  · intro j hj
    rw [hres]
    exact List.getElem?_set_ne (Ne.symm hj)
  · rw [hres]
    exact List.length_set _ _ _

theorem updateNotebook_first_match_witness :
    (∃ n ∈ [[("id", JsVal.num 1), ("title", JsVal.str "a")],
          [("id", JsVal.num 2), ("title", JsVal.str "b")],
          [("id", JsVal.num 2), ("title", JsVal.str "c")]],
        strictEq (getProp n "id") (.num 2) = true)
      ∧ ∃ (i : Nat) (entry : Obj),
          [[("id", JsVal.num 1), ("title", JsVal.str "a")],
            [("id", JsVal.num 2), ("title", JsVal.str "b")],
            [("id", JsVal.num 2), ("title", JsVal.str "c")]][i]? = some entry
          ∧ (updateNotebook (.num 2) [("title", .str "z"), ("pinned", .bool true)]
              { store := { user := none, accessToken := .null,
                           notebooks := [[("id", .num 1), ("title", .str "a")],
                             [("id", .num 2), ("title", .str "b")],
                             [("id", .num 2), ("title", .str "c")]],
                           currentNotebook := none }
                localStorage := [] }).store.notebooks[i]?
            = some (spread entry [("title", .str "z"), ("pinned", .bool true)]) := by
  have hex : ∃ n ∈ [[("id", JsVal.num 1), ("title", JsVal.str "a")],
        [("id", JsVal.num 2), ("title", JsVal.str "b")],
        [("id", JsVal.num 2), ("title", JsVal.str "c")]],
      strictEq (getProp n "id") (.num 2) = true := by decide
  obtain ⟨i, entry, hget, _, _, hnew, _⟩ :=
    updateNotebook_first_match (.num 2) [("title", .str "z"), ("pinned", .bool true)]
      { store := { user := none, accessToken := .null,
                   notebooks := [[("id", .num 1), ("title", .str "a")],
                     [("id", .num 2), ("title", .str "b")],
                     [("id", .num 2), ("title", .str "c")]],
                   currentNotebook := none }
        localStorage := [] } hex
  exact ⟨hex, i, entry, hget, hnew⟩

/-- C5: for every notebook collection and every id, after `deleteNotebook(id)` the collection
contains no entry whose id is strictly equal to `id`, and it is exactly the subsequence of
the prior collection made of the entries whose id differs from `id`, in their original order:
it is a sublist of the prior collection that keeps every entry whose id differs, as many times
as it occurred. Deleting an id that no entry has leaves everything unchanged. -/
theorem deleteNotebook_removes_all_matches (id : JsVal) (w : World) :
    (∀ n ∈ (deleteNotebook id w).store.notebooks, strictEq (getProp n "id") id = false)
      ∧ (deleteNotebook id w).store.notebooks.Sublist w.store.notebooks
      ∧ (∀ n : Obj, strictEq (getProp n "id") id = false →
          (deleteNotebook id w).store.notebooks.count n = w.store.notebooks.count n)
      ∧ (deleteNotebook id w).store.notebooks
          = w.store.notebooks.filter (fun n => !strictEq (getProp n "id") id)
      ∧ ((∀ n ∈ w.store.notebooks, strictEq (getProp n "id") id = false) →
          deleteNotebook id w = w) := by
  refine ⟨?_, ?_, ?_, rfl, ?_⟩
  · intro n hn
    have := (List.mem_filter.mp hn).2
    simpa using this
  · exact List.filter_sublist _
  · intro n hn
    exact List.count_filter (by simp [hn])
  · intro hall
    have hfil : w.store.notebooks.filter (fun n => !strictEq (getProp n "id") id)
        = w.store.notebooks :=
      List.filter_eq_self.mpr (fun n hn => by simp [hall n hn])
    simp [deleteNotebook, deleteNotebookList, hfil]

theorem strictEq_str_iff (a : JsVal) (s : String) :
    strictEq a (.str s) = true ↔ a = .str s := by
  cases a <;> simp [strictEq]

/-- C7: for the four combinations of the booleans (sync configured, online), `getSyncStatus`
returns the label `Local Only` when sync is not configured, whatever the connectivity,
`Offline` when sync is configured and connectivity is false, and `Online` when sync is
configured and connectivity is true; the three labels are pairwise distinct, so exactly one
is returned in each case. Sync is configured exactly when the sync URL is truthy. -/
theorem getSyncStatus_labels :
    (getSyncStatus false false).status = "Local Only"
      ∧ (getSyncStatus false true).status = "Local Only"
      ∧ (getSyncStatus true false).status = "Offline"
      ∧ (getSyncStatus true true).status = "Online"
      ∧ "Local Only" ≠ "Offline" ∧ "Local Only" ≠ "Online" ∧ "Offline" ≠ "Online"
      ∧ (∀ url : JsVal, isSyncEnabled url = truthy url)
      ∧ (∀ configured onLine : Bool, (getSyncStatus configured onLine).enabled = configured) := by
  refine ⟨rfl, rfl, rfl, rfl, by decide, by decide, by decide, ?_, ?_⟩
  · intro url
    unfold isSyncEnabled syncService
    cases truthy url <;> rfl
  · intro configured onLine
    cases configured <;> cases onLine <;> rfl

/-- C9: for every error reaching the rejection handler of the local client: if its code is
`ECONNREFUSED` or `ERR_NETWORK` the handler throws a new error whose message is the fixed
backend-not-running text, whatever the message of the original error; for every other code,
a missing code included, it throws the original error itself. It never returns normally. -/
theorem localResponseRejected_outcome (error : Obj) :
    ((getProp error "code" = .str "ECONNREFUSED" ∨ getProp error "code" = .str "ERR_NETWORK") →
        (localResponseRejected error).2 = .error (newError backendNotRunning))
      ∧ (¬ (getProp error "code" = .str "ECONNREFUSED"
            ∨ getProp error "code" = .str "ERR_NETWORK") →
        (localResponseRejected error).2 = .error error)
      ∧ (∀ response : Obj, (localResponseRejected error).2 ≠ .ok response)
      ∧ getProp (newError backendNotRunning) "message"
          = .str ("Local AI backend not running. Please start it with: "
              ++ "uvicorn app.main:app --reload --port 5000") := by
  have hcond : (strictEq (getProp error "code") (.str "ECONNREFUSED")
        || strictEq (getProp error "code") (.str "ERR_NETWORK")) = true
      ↔ (getProp error "code" = .str "ECONNREFUSED"
          ∨ getProp error "code" = .str "ERR_NETWORK") := by
    rw [Bool.or_eq_true, strictEq_str_iff, strictEq_str_iff]
  refine ⟨?_, ?_, ?_, by decide⟩
  · intro hc
    simp only [localResponseRejected, hcond.mpr hc, if_true]
  · intro hc
    have hfalse : (strictEq (getProp error "code") (.str "ECONNREFUSED")
        || strictEq (getProp error "code") (.str "ERR_NETWORK")) = false := by
      cases hb : (strictEq (getProp error "code") (.str "ECONNREFUSED")
        || strictEq (getProp error "code") (.str "ERR_NETWORK"))
      · rfl
      · exact absurd (hcond.mp hb) hc
    simp only [localResponseRejected, hfalse, Bool.false_eq_true, if_false]
  · intro response
    unfold localResponseRejected
    split <;> simp

/-- C10: for every outgoing sync request config and every outcome of the token retrieval,
an interceptor installed by `configureSyncAuth` returns a request config and never fails:
when the retrieval yields a non-empty token `t`, the `Authorization` header of the returned
config is `Bearer ` followed by `t` and the other headers are the incoming ones; when the
retrieval fails or yields `null`, `undefined` or the empty string, the returned config is the
incoming config; the other fields of the config are unchanged in every case. -/
theorem configureSyncAuth_interceptor (client : Option ClientConfig)
    (interceptor : TokenOutcome → RequestConfig → List LogEntry × Except Obj RequestConfig)
    (hinst : interceptor ∈ configureSyncAuth client)
    (outcome : TokenOutcome) (config : RequestConfig) :
    (∃ c : RequestConfig, (interceptor outcome config).2 = .ok c ∧ c.fields = config.fields)
      ∧ (∀ t : String, t ≠ "" → outcome = .resolved (.str t) →
          ∃ c : RequestConfig, (interceptor outcome config).2 = .ok c
            ∧ c.headers.lookup "Authorization" = some (.str ("Bearer " ++ t))
            ∧ (∀ k : String, k ≠ "Authorization" → c.headers.lookup k = config.headers.lookup k)
            ∧ c.fields = config.fields)
      ∧ ((outcome = .resolved .null ∨ outcome = .resolved .undefined
            ∨ outcome = .resolved (.str "") ∨ ∃ e : Obj, outcome = .rejected e) →
          (interceptor outcome config).2 = .ok config) := by
  have hi : interceptor = syncAuthInterceptor := by
    cases client with
    | none => simp [configureSyncAuth] at hinst
    | some c => simpa [configureSyncAuth] using hinst
  subst hi
  refine ⟨?_, ?_, ?_⟩
  · cases outcome with
    | resolved token =>
      cases ht : truthy token with
      | true =>
        exact ⟨{ config with
            headers := setProp config.headers "Authorization"
              (.str ("Bearer " ++ toStr token)) },
          by simp only [syncAuthInterceptor, ht, if_true], rfl⟩
      | false =>
        exact ⟨config,
          by simp only [syncAuthInterceptor, ht, Bool.false_eq_true, if_false], rfl⟩
    | rejected e => exact ⟨config, rfl, rfl⟩
  · intro t ht hout
    subst hout
    have htr : truthy (.str t) = true := by simp [truthy, ht]
    refine ⟨{ config with
        headers := setProp config.headers "Authorization" (.str ("Bearer " ++ t)) },
      ?_, ?_, ?_, rfl⟩
    · simp only [syncAuthInterceptor, htr, if_true, toStr]
    · exact lookup_setProp_self _ _ _
    · intro k hk
      exact lookup_setProp_other _ _ _ _ hk
  · rintro (rfl | rfl | rfl | ⟨e, rfl⟩) <;> rfl

theorem configureSyncAuth_interceptor_witness :
    syncAuthInterceptor ∈ configureSyncAuth
        (some { baseURL := "https://sync.example", timeout := 10000,
                headers := [("Content-Type", "application/json")] })
      ∧ ∃ c : RequestConfig,
          (syncAuthInterceptor (.resolved (.str "abc"))
              { headers := [("Content-Type", .str "application/json")],
                fields := [("url", .str "/notebooks")] }).2 = .ok c
            ∧ c.headers.lookup "Authorization" = some (.str ("Bearer " ++ "abc")) := by
  have hmem : syncAuthInterceptor ∈ configureSyncAuth
      (some { baseURL := "https://sync.example", timeout := 10000,
              headers := [("Content-Type", "application/json")] }) := by
    simp [configureSyncAuth]
  obtain ⟨c, hc, hauth, _⟩ :=
    (configureSyncAuth_interceptor _ syncAuthInterceptor hmem (.resolved (.str "abc"))
      { headers := [("Content-Type", .str "application/json")],
        fields := [("url", .str "/notebooks")] }).2.1 "abc" (by decide) rfl
  exact ⟨hmem, c, hc, hauth⟩

end Clarity
